import Mathlib

/-!
Verification of the Mr. White gateway (src/extension.py) against its
natural-language specification.  Python strings are modelled as Lean
`String`s; character-level slicing steps use `List Char`.  External calls
(the redirect probe, the content fetch, the Ollama model service) are
modelled as environment outcomes, including cancellation, so that the
pipeline's control flow is embedded faithfully.
-/

namespace MrWhite

/-! ## Constants (src/extension.py lines 17-23) -/

def MAX_SCAN_HISTORY : Nat := 1
def MAX_MEMORY_TURNS : Nat := 5
def MODEL_NAME : String := "llama2:7b-chat-q4_0"
def SCAN_TIMEOUT : Nat := 50
def CHAT_TIMEOUT : Nat := 30
def CONTENT_LIMIT : Nat := 6000

/-! ## Python string primitives, modelled on `List Char` -/

/-- Model of Python `str.strip()`: drop whitespace from both ends. -/
def pyStrip (l : List Char) : List Char :=
  ((l.dropWhile Char.isWhitespace).reverse.dropWhile Char.isWhitespace).reverse

/-- Model of `re.sub(r"</s>+", "", s)`: remove each occurrence of the
characters `<`, `/`, `s` followed by a maximal nonempty run of `>`.
The Boolean state records that the scanner is inside such a run. -/
def removeEosAux : Bool → List Char → List Char
  | _, [] => []
  | true, '>' :: rest => removeEosAux true rest
  | _, '<' :: '/' :: 's' :: '>' :: rest => removeEosAux true rest
  | _, c :: rest => c :: removeEosAux false rest

def removeEos (l : List Char) : List Char := removeEosAux false l

/-- Model of Python `str.splitlines()` restricted to the newline
character; the difference on trailing newlines is erased by the
empty-line filter applied at every use site. -/
def splitLinesAux : List Char → List Char → List (List Char)
  | [], acc => [acc.reverse]
  | '\n' :: rest, acc => acc.reverse :: splitLinesAux rest []
  | c :: rest, acc => splitLinesAux rest (c :: acc)

def splitLines (l : List Char) : List (List Char) := splitLinesAux l []

/-- Join pieces with a separator, model of Python `sep.join(lines)`. -/
def joinWith (sep : List Char) : List (List Char) → List Char
  | [] => []
  | [x] => x
  | x :: xs => x ++ sep ++ joinWith sep xs

/-- Model of Python `s.rsplit(".", 1)[0]`: everything before the last
period, or the whole string when no period occurs. -/
def beforeLastDot (l : List Char) : List Char :=
  if l.any (fun c => c == '.') then
    ((l.reverse.dropWhile (fun c => !(c == '.'))).drop 1).reverse
  else l

/-- Model of `if len(s) > cap: s = s[:cap].rsplit(".", 1)[0] + "."`. -/
def capSentence (cap : Nat) (l : List Char) : List Char :=
  if cap < l.length then beforeLastDot (l.take cap) ++ ['.'] else l

/-- Model of Python `str.startswith(pre)`. -/
def pyStartsWith (pre s : String) : Bool := pre.toList.isPrefixOf s.toList

/-! ## Data model -/

structure Turn where
  role : String
  content : String
deriving DecidableEq

structure ScanRec where
  page : String
  result : String
deriving DecidableEq

/-! ## Environment outcomes for the external adapters -/

/-- Outcome of the redirect-tracking HEAD probe (stage 1). -/
inductive HeadOutcome where
  | ok (redirects : List String) (finalUrl : String)
  | timeout
  | cancelled
  | err (msg : String)
deriving DecidableEq

/-- Outcome of the content GET (stage 2); a fetch timeout surfaces as an
`asyncio.TimeoutError`, which the source catches with `except Exception`. -/
inductive FetchOutcome where
  | ok (body : String) (status : Nat)
  | timeout
  | cancelled
  | err (msg : String)
deriving DecidableEq

/-- Outcome of one `ollama.chat` call under `asyncio.wait_for`. -/
inductive ModelOutcome where
  | ok (reply : String)
  | timeout
  | cancelled
  | err (msg : String)
deriving DecidableEq

/-- The exceptions that escape a stage: cooperative cancellation, or an
ordinary Python exception carrying its message. -/
inductive PyExn where
  | cancelled
  | exn (msg : String)
deriving DecidableEq

structure ScanEnv where
  head : HeadOutcome
  fetch : String → FetchOutcome
  model : String → ModelOutcome

/-! ## Scan pipeline (perform_scan, lines 133-281) -/

/-- Stage 1 of perform_scan (lines 137-168): redirect probe with its own
handlers; a probe timeout or error never fails the pipeline, only
cancellation is re-raised. -/
def redirectCheck (url : String) (o : HeadOutcome) : Except PyExn (String × String) :=
  match o with
  | .ok redirects finalUrl =>
      if redirects.isEmpty then .ok ("No", url)
      else .ok ("Yes - " ++ String.intercalate " -> " (redirects ++ [finalUrl]), finalUrl)
  | .timeout => .ok ("Unknown - check timed out", url)
  | .cancelled => .error .cancelled
  | .err _ => .ok ("Error checking redirects", url)

/-- Stage 2 content post-processing (lines 180-185): truncate at
CONTENT_LIMIT and prepend a warning for HTTP status >= 400. -/
def processContent (body : String) (status : Nat) : String :=
  let content :=
    if CONTENT_LIMIT < body.length then
      (body.toList.take CONTENT_LIMIT).asString ++ "... [content truncated for analysis]"
    else body
  if 400 ≤ status then
    "Warning: URL returned status code " ++ toString status ++ "\n\n" ++ content
  else content

/-- The formatted scan payload handed to the model (line 194). -/
def formatScanMessage (url redirectInfo : String) (status : Nat) (content : String) : String :=
  "[SCAN_PAGE] URL: " ++ url ++ "\n\nRedirect info: " ++ redirectInfo ++
  "\n\nStatus Code: " ++ toString status ++ "\n\n" ++ content

/-- Normalisation of the model reply in the analyze stage
(lines 231-245): strip, drop end-of-sequence markers, collapse blank
lines, inject a default threat-level marker when absent. -/
def preTrunc (raw : List Char) : List Char :=
  let r1 := pyStrip raw
  let r2 := pyStrip (removeEos r1)
  let lines := ((splitLines r2).map pyStrip).filter (fun s => !s.isEmpty)
  let r3 := joinWith ['\n'] lines
  if lines.any (fun s => ("Threat Level:".toList).isPrefixOf s) then r3
  else "Threat Level: Unknown\n".toList ++ r3

/-- Full reply processing for a successful analyze stage, including the
1500-character sentence-boundary cap (lines 244-245). -/
def normalizeReply (raw : List Char) : List Char := capSentence 1500 (preTrunc raw)

def scanReport (raw : String) : String := (normalizeReply raw.toList).asString

/-- The synthesized degraded report of the analyze-stage cancellation
handler (lines 259-268). -/
def degradedReport (url redirectInfo : String) : String :=
  "Status: Analysis cancelled but redirect detected\n" ++
  "Threat Level: Unknown\n" ++
  "Link: " ++ url ++ "\n" ++
  "Redirects: " ++ redirectInfo ++ "\n\n" ++
  "1. Main purpose: Analysis was interrupted, but redirect information was captured\n" ++
  "2. Content summary: Unable to complete full analysis\n" ++
  "3. Security concerns: Unknown - scan was interrupted\n" ++
  "4. Recommendation: Exercise caution when clicking links"

/-- The JSON-object results of perform_scan, modelled as association
lists over the dictionary keys the source builds. -/
abbrev ScanDict := List (String × String)

/-- Analyze stage (lines 196-274): only `asyncio.CancelledError` is
handled here; a model timeout or any other exception propagates to the
outer handler.  On success or on cancellation with redirect info the new
scan history replaces the old one with a single record (`MAX_SCAN_HISTORY`
is 1, lines 248-249 and 271-272). -/
def analyzeStage (env : ScanEnv) (url redirectInfo formatted : String) :
    Except PyExn (ScanDict × List ScanRec) :=
  match env.model formatted with
  | .ok raw =>
      let reply := scanReport raw
      .ok ([("response", reply), ("url", url)], [⟨url, reply⟩])
  | .timeout => .error (.exn "")
  | .err m => .error (.exn m)
  | .cancelled =>
      if redirectInfo ≠ "" then
        .ok ([("response", degradedReport url redirectInfo), ("url", url)],
             [⟨url, degradedReport url redirectInfo⟩])
      else .error .cancelled

/-- Content-fetch stage (lines 170-191): a fetch timeout or error is an
early `return` with an error dictionary and no history write; only
cancellation is re-raised. -/
def fetchStage (env : ScanEnv) (url redirectInfo finalUrl : String) (scans : List ScanRec) :
    Except PyExn (ScanDict × List ScanRec) :=
  match env.fetch finalUrl with
  | .cancelled => .error .cancelled
  | .timeout => .ok ([("error", "Failed to fetch URL content: ")], scans)
  | .err m => .ok ([("error", "Failed to fetch URL content: " ++ m)], scans)
  | .ok body status =>
      analyzeStage env url redirectInfo
        (formatScanMessage url redirectInfo status (processContent body status))

def performScanBody (env : ScanEnv) (url : String) (scans : List ScanRec) :
    Except PyExn (ScanDict × List ScanRec) :=
  match redirectCheck url env.head with
  | .error e => .error e
  | .ok (redirectInfo, finalUrl) => fetchStage env url redirectInfo finalUrl scans

/-- The outer handlers of perform_scan (lines 276-281): cancellation and
every remaining exception become error dictionaries, with the persisted
scan history untouched. -/
def runScanHandler (scans : List ScanRec) :
    Except PyExn (ScanDict × List ScanRec) → ScanDict × List ScanRec
  | .ok r => r
  | .error .cancelled =>
      ([("error", "Scan was cancelled. Try again with a direct URL instead of a shortened one.")],
       scans)
  | .error (.exn m) => ([("error", "Failed to scan URL: " ++ m)], scans)

/-- perform_scan: result dictionary plus the scan history as persisted
after the call. -/
def perform_scan (env : ScanEnv) (url user : String) (scans : List ScanRec) :
    ScanDict × List ScanRec :=
  runScanHandler scans (performScanBody env url scans)

/-- The pipeline continuation from the content-fetch stage onward, used
to state that a failed redirect probe still proceeds to stage 2. -/
def performScanFromFetch (env : ScanEnv) (url redirectInfo finalUrl : String)
    (scans : List ScanRec) : ScanDict × List ScanRec :=
  runScanHandler scans (fetchStage env url redirectInfo finalUrl scans)

/-! ## Chat pipeline (process_chat, lines 449-556) -/

/-- Outcome of `requests.get("http://localhost:11434/api/version")`. -/
inductive VersionCheck where
  | reachable (status : Nat)
  | unreachable (msg : String)
deriving DecidableEq

/-- Outcome of the `/api/tags` model listing; a failing check is logged
and the request continues (lines 510-512). -/
inductive TagsCheck where
  | modelList (names : List String)
  | checkError (msg : String)
deriving DecidableEq

structure ChatEnv where
  version : VersionCheck
  tags : TagsCheck
  model : List Turn → ModelOutcome

/-- The fixed chat system preamble (lines 463-471). -/
def chatPreamble : String :=
  "You are Mr. White, a security assistant specializing in detecting phishing, scams, " ++
  "and cybersecurity threats. You are knowledgeable, concise, and focused on security. " ++
  "You should respond to user questions by providing clear, actionable security advice. " ++
  "Keep answers brief but helpful. If you don\x27t know something, admit it rather than speculating."

/-- Digest of the most recent scan appended to the preamble
(lines 474-488); Python truthiness of the result string is nonemptiness. -/
def scanContext (scans : List ScanRec) : String :=
  match scans.getLast? with
  | none => ""
  | some s =>
      if s.result = "" then ""
      else
        "\n\nRecent scan results:\n" ++ s.result ++
        "\n\nRefer to this information if the user asks about recent scans."

def systemMessage (scans : List ScanRec) : Turn :=
  ⟨"system", chatPreamble ++ scanContext scans⟩

/-- The history-window loop of process_chat (lines 452-460), acting on
the reversed history: every walked entry is kept, entries with role
"user" are counted, and the walk stops once the count reaches
MAX_MEMORY_TURNS. -/
def collectWindow : List Turn → Nat → List Turn
  | [], _ => []
  | m :: rest, count =>
      if MAX_MEMORY_TURNS ≤ (if m.role == "user" then count + 1 else count) then [m]
      else m :: collectWindow rest (if m.role == "user" then count + 1 else count)

/-- The context window restored to chronological order. -/
def windowTurns (history : List Turn) : List Turn :=
  (collectWindow history.reverse 0).reverse

/-- The exact message sequence handed to the model (line 490). -/
def fullHistory (history : List Turn) (scans : List ScanRec) (msg : String) : List Turn :=
  systemMessage scans :: windowTurns history ++ [⟨"user", msg⟩]

/-- Chat reply normalisation plus the 2000-character sentence-boundary
cap (lines 527-541). -/
def chatReply (raw : String) : String :=
  let r1 := pyStrip raw.toList
  let r2 := pyStrip (removeEos r1)
  let r3 := joinWith ['\n', '\n'] (((splitLines r2).map pyStrip).filter (fun s => !s.isEmpty))
  (capSentence 2000 r3).asString

/-- History persistence of process_chat (lines 544-553): append the
user/assistant pair, trim to the most recent 2 * MAX_MEMORY_TURNS
entries when the bound is exceeded. -/
def chatPersist (history : List Turn) (msg reply : String) : List Turn :=
  let h := history ++ [⟨"user", msg⟩, ⟨"assistant", reply⟩]
  if MAX_MEMORY_TURNS * 2 < h.length then h.drop (h.length - MAX_MEMORY_TURNS * 2) else h

/-- The model-missing error message of lines 508-509. -/
def modelMissingMsg (names : List String) : String :=
  "Error: The model \x27" ++ MODEL_NAME ++ "\x27 is not available in Ollama. Available models: " ++
  String.intercalate ", " names ++ ". Please pull the model using \x27ollama pull " ++
  MODEL_NAME ++ "\x27."

/-- The `ollama.chat` call of process_chat with its handlers
(lines 514-541): timeout and generic errors return early with an error
string and no history write; only success appends and trims. -/
def chatModelCall (env : ChatEnv) (msgs history : List Turn) (msg : String) :
    Except PyExn (String × List Turn) :=
  match env.model msgs with
  | .cancelled => .error .cancelled
  | .timeout =>
      .ok ("Error: Request timed out after " ++ toString CHAT_TIMEOUT ++
           " seconds. Please try a shorter message or try again later.", history)
  | .err m =>
      .ok ("Error: Error processing request: " ++ m ++ ". Please check server logs for details.",
           history)
  | .ok raw =>
      let reply := chatReply raw
      .ok (reply, chatPersist history msg reply)

/-- process_chat: returns the reply string and the conversation history
as persisted after the call. -/
def process_chat (env : ChatEnv) (history : List Turn) (scans : List ScanRec) (msg : String) :
    Except PyExn (String × List Turn) :=
  let msgs := fullHistory history scans msg
  match env.version with
  | .unreachable m =>
      .ok ("Error: Ollama connection issue - " ++ m ++ ". Please make sure Ollama is running.",
           history)
  | .reachable status =>
      if status ≠ 200 then
        .ok ("Error: Unable to connect to Ollama service (Status code: " ++ toString status ++
             "). Please make sure Ollama is running.", history)
      else
        match env.tags with
        | .modelList names =>
            if MODEL_NAME ∈ names then chatModelCall env msgs history msg
            else .ok (modelMissingMsg names, history)
        | .checkError _ => chatModelCall env msgs history msg

/-! ## Delete-message endpoint (lines 568-588) -/

/-- Core of the DELETE /history/user/index handler: bounds validation,
pair deletion for a user turn immediately followed by an assistant turn,
single deletion otherwise. -/
def deleteMessage (history : List Turn) (index : Int) : Except String (List Turn) :=
  if index < 0 ∨ (history.length : Int) ≤ index then
    .error ("Invalid index " ++ toString index)
  else if index.toNat < history.length ∧ (history.getD index.toNat ⟨"", ""⟩).role = "user" then
    if index.toNat + 1 < history.length ∧
        (history.getD (index.toNat + 1) ⟨"", ""⟩).role = "assistant" then
      .ok (history.take index.toNat ++ history.drop (index.toNat + 2))
    else .ok (history.eraseIdx index.toNat)
  else .ok (history.eraseIdx index.toNat)

/-- The endpoint: on validation error nothing is saved, so the persisted
history is returned unchanged alongside the error. -/
def delete_message_endpoint (user : String) (history : List Turn) (index : Int) :
    Except String String × List Turn :=
  match deleteMessage history index with
  | .error e => (.error e, history)
  | .ok h' => (.ok ("Message " ++ toString index ++ " deleted for user " ++ user), h')

/-! ## WebSocket /scan URL normalisation (lines 685-687) -/

def hasHttpScheme (url : String) : Bool :=
  pyStartsWith "http://" url || pyStartsWith "https://" url

/-- The /scan handler prefixing: `if not url.startswith("http")`. -/
def normalizeScanUrl (url : String) : String :=
  if pyStartsWith "http" url then url else "http://" ++ url

/-! ## Derived counting helper -/

/-- Number of user-authored entries in a message sequence. -/
def countUser (l : List Turn) : Nat := (l.filter (fun t => t.role == "user")).length

/-- Result-dictionary shape of perform_scan: an error key, or both a
response and a url key. -/
def resultShape (d : ScanDict) : Prop :=
  (d.lookup "error").isSome = true ∨
  ((d.lookup "response").isSome = true ∧ (d.lookup "url").isSome = true)

/-! ## Concrete environments and inputs used in closed statements -/

def cexEnvModelTimeout : ScanEnv :=
  { head := .ok ["http://short.example/x", "http://mid.example/y"] "http://final.example/z"
    fetch := fun _ => .ok "page body" 200
    model := fun _ => .timeout }

def cexEnvModelCancel : ScanEnv :=
  { head := .ok ["http://short.example/x", "http://mid.example/y"] "http://final.example/z"
    fetch := fun _ => .ok "page body" 200
    model := fun _ => .cancelled }

def cexLongReply : String :=
  ("Threat Level: ".toList ++ List.replicate 1490 'a').asString

def cexEnvLongReply : ScanEnv :=
  { head := .ok [] "http://site.example/"
    fetch := fun _ => .ok "page body" 200
    model := fun _ => .ok cexLongReply }

def cexEnvShortReply : ScanEnv :=
  { head := .ok [] "http://site.example/"
    fetch := fun _ => .ok "page body" 200
    model := fun _ => .ok "Threat Level: Safe\nStatus: fine." }

def cexEnvFetchErr : ScanEnv :=
  { head := .ok [] "http://site.example/"
    fetch := fun _ => .err "connection refused"
    model := fun _ => .ok "unused" }

def cexEnvFetchTimeout : ScanEnv :=
  { head := .ok [] "http://site.example/"
    fetch := fun _ => .timeout
    model := fun _ => .ok "unused" }

def cexEnvHeadTimeout : ScanEnv :=
  { head := .timeout
    fetch := fun _ => .ok "page body" 200
    model := fun _ => .ok "Threat Level: Safe\nok." }

def cexEnvHeadErr : ScanEnv :=
  { head := .err "dns failure"
    fetch := fun _ => .ok "page body" 200
    model := fun _ => .ok "Threat Level: Safe\nok." }

def cexChatEnvDown : ChatEnv :=
  { version := .unreachable "connection refused"
    tags := .checkError "tags unreachable"
    model := fun _ => .ok "hello" }

def cexHistoryTen : List Turn :=
  [⟨"user", "u1"⟩, ⟨"assistant", "a1"⟩, ⟨"user", "u2"⟩, ⟨"assistant", "a2"⟩,
   ⟨"user", "u3"⟩, ⟨"assistant", "a3"⟩, ⟨"user", "u4"⟩, ⟨"assistant", "a4"⟩,
   ⟨"user", "u5"⟩, ⟨"assistant", "a5"⟩]

def cexHistoryPair : List Turn :=
  [⟨"user", "first question"⟩, ⟨"assistant", "first answer"⟩, ⟨"user", "second question"⟩]

def cexRedirectChain : String :=
  "Yes - http://short.example/x -> http://mid.example/y -> http://final.example/z"

/-- The early-return failure conditions of process_chat: Ollama service
unreachable, non-200 version status, the configured model missing from
the tag list, a model-call timeout, or a model-call error. -/
def chatFailure (env : ChatEnv) (msgs : List Turn) : Prop :=
  (∃ m, env.version = .unreachable m) ∨
  (∃ s, env.version = .reachable s ∧ s ≠ 200) ∨
  (∃ names, env.tags = .modelList names ∧ MODEL_NAME ∉ names) ∨
  env.model msgs = .timeout ∨
  (∃ m, env.model msgs = .err m)

/-! # Theorems -/

/-! ## Helper lemmas -/

theorem countUser_cons (t : Turn) (l : List Turn) :
    countUser (t :: l) = (if t.role == "user" then 1 else 0) + countUser l := by
  cases h : (t.role == "user") <;> simp [countUser, List.filter_cons, h, Nat.add_comm]

theorem countUser_append (l₁ l₂ : List Turn) :
    countUser (l₁ ++ l₂) = countUser l₁ + countUser l₂ := by
  simp [countUser, List.filter_append]

theorem countUser_reverse (l : List Turn) : countUser l.reverse = countUser l := by
  simp [countUser, List.filter_reverse]

theorem countUser_collectWindow (l : List Turn) : ∀ c : Nat, c < MAX_MEMORY_TURNS →
    countUser (collectWindow l c) + c ≤ MAX_MEMORY_TURNS := by
  induction l with
  | nil => intro c hc; simpa [collectWindow, countUser] using Nat.le_of_lt hc
  | cons m rest ih =>
      intro c hc
      unfold collectWindow
      by_cases hrole : m.role = "user"
      · by_cases hge : MAX_MEMORY_TURNS ≤ c + 1
        · simp [hrole, hge, countUser_cons, countUser]
          omega
        · have h1 := ih (c + 1) (by omega)
          simp [hrole, hge, countUser_cons]
          omega
      · have hne : ¬ MAX_MEMORY_TURNS ≤ c := by omega
        have h1 := ih c hc
        simp [hrole, hne, countUser_cons]
        omega

theorem countUser_windowTurns (h : List Turn) :
    countUser (windowTurns h) ≤ MAX_MEMORY_TURNS := by
  have := countUser_collectWindow h.reverse 0 (by norm_num [MAX_MEMORY_TURNS])
  unfold windowTurns
  rw [countUser_reverse]
  omega

theorem collectWindow_leads (l : List Turn) : ∀ c, ∃ t, l = collectWindow l c ++ t := by
  induction l with
  | nil => intro c; exact ⟨[], rfl⟩
  | cons m rest ih =>
      intro c
      unfold collectWindow
      by_cases hge : MAX_MEMORY_TURNS ≤ (if m.role == "user" then c + 1 else c)
      · rw [if_pos hge]
        exact ⟨rest, rfl⟩
      · rw [if_neg hge]
        obtain ⟨t, ht⟩ := ih (if m.role == "user" then c + 1 else c)
        exact ⟨t, by rw [List.cons_append, ← ht]⟩

theorem windowTurns_suffix (h : List Turn) : ∃ pre, h = pre ++ windowTurns h := by
  obtain ⟨t, ht⟩ := collectWindow_leads h.reverse 0
  refine ⟨t.reverse, ?_⟩
  unfold windowTurns
  calc h = h.reverse.reverse := (List.reverse_reverse h).symm
    _ = (collectWindow h.reverse 0 ++ t).reverse := by rw [← ht]
    _ = t.reverse ++ (collectWindow h.reverse 0).reverse := List.reverse_append _ _

/-! ## Claim C2 -/

/-- Claim C2: after every completed chat turn processed by process_chat,
the persisted ConversationHistory has length at most
2 * MAX_MEMORY_TURNS, and trimming retains exactly the most recent
entries in their original order (the persisted list is the suffix of the
appended history obtained by dropping the excess oldest entries). -/
theorem chat_persist_bound (h : List Turn) (m r : String) :
    (chatPersist h m r).length ≤ 2 * MAX_MEMORY_TURNS ∧
    chatPersist h m r =
      (h ++ [Turn.mk "user" m, Turn.mk "assistant" r]).drop
        ((h ++ [Turn.mk "user" m, Turn.mk "assistant" r]).length - 2 * MAX_MEMORY_TURNS) := by
  have hM : MAX_MEMORY_TURNS * 2 = 2 * MAX_MEMORY_TURNS := Nat.mul_comm _ _
  unfold chatPersist
  by_cases hlen :
      MAX_MEMORY_TURNS * 2 < (h ++ [Turn.mk "user" m, Turn.mk "assistant" r]).length
  · rw [if_pos hlen, hM]
    refine ⟨?_, rfl⟩
    rw [List.length_drop]
    omega
  · rw [if_neg hlen]
    have h0 : (h ++ [Turn.mk "user" m, Turn.mk "assistant" r]).length - 2 * MAX_MEMORY_TURNS = 0 := by
      omega
    rw [h0, List.drop_zero]
    exact ⟨by omega, rfl⟩

/-! ## Claim C9 -/

theorem resultShape_fetchStage (env : ScanEnv) (url ri finalUrl : String)
    (scans : List ScanRec) :
    resultShape (runScanHandler scans (fetchStage env url ri finalUrl scans)).1 := by
  unfold resultShape fetchStage
  cases hf : env.fetch finalUrl with
  | ok body status =>
      simp only [hf]
      unfold analyzeStage
      cases hm : env.model (formatScanMessage url ri status (processContent body status)) with
      | ok raw => right; simp [hm, runScanHandler, List.lookup]
      | timeout => left; simp [hm, runScanHandler, List.lookup]
      | err m => left; simp [hm, runScanHandler, List.lookup]
      | cancelled =>
          by_cases hri : ri ≠ ""
          · right; simp [hm, hri, runScanHandler, List.lookup]
          · left; simp [hm, hri, runScanHandler, List.lookup]
  | timeout => left; simp [hf, runScanHandler, List.lookup]
  | cancelled => left; simp [hf, runScanHandler, List.lookup]
  | err m => left; simp [hf, runScanHandler, List.lookup]

/-- Claim C9: for every environment (including cancellation at any
stage), url, user and stored scan history, perform_scan returns a
dictionary that contains either the key "error" or both keys "response"
and "url"; no exception escapes, every failure is converted into one of
these two result shapes. -/
theorem perform_scan_result_shape (env : ScanEnv) (url user : String)
    (scans : List ScanRec) :
    ((perform_scan env url user scans).1.lookup "error").isSome = true ∨
    (((perform_scan env url user scans).1.lookup "response").isSome = true ∧
     ((perform_scan env url user scans).1.lookup "url").isSome = true) := by
  show resultShape (perform_scan env url user scans).1
  unfold perform_scan performScanBody redirectCheck
  cases hh : env.head with
  | ok redirects finalUrl =>
      dsimp only
      by_cases hr : redirects.isEmpty
      · rw [if_pos hr]; exact resultShape_fetchStage env url "No" url scans
      · rw [if_neg hr]
        exact resultShape_fetchStage env url _ finalUrl scans
  | timeout => exact resultShape_fetchStage env url "Unknown - check timed out" url scans
  | cancelled => left; simp [runScanHandler, List.lookup]
  | err m => exact resultShape_fetchStage env url "Error checking redirects" url scans

/-! ## Claim C3 -/

/-- Claim C3 counterexample: with a stored history holding five
user/assistant pairs, the message sequence process_chat hands to the
model contains MAX_MEMORY_TURNS + 1 = 6 user-authored entries, because
the current user message is appended after the window of
MAX_MEMORY_TURNS stored user turns; so the sequence does not contain at
most MAX_MEMORY_TURNS user-authored entries as claimed. -/
theorem context_window_cex :
    countUser (fullHistory cexHistoryTen [] "question") = MAX_MEMORY_TURNS + 1 ∧
    ¬ countUser (fullHistory cexHistoryTen [] "question") ≤ MAX_MEMORY_TURNS := by
  constructor <;> decide

/-- Claim C3 (amended): the message sequence handed to the model begins
with the system preamble; the window drawn from the stored history
contains at most MAX_MEMORY_TURNS user-authored entries, collected by
walking the history newest to oldest and restored to chronological order
(it is a suffix of the stored history); the full handed sequence, which
additionally ends with the current user message, therefore contains at
most MAX_MEMORY_TURNS + 1 user-authored entries.  The construction is a
pure function of the stored history, hence deterministic. -/
theorem context_window_amended (h : List Turn) (s : List ScanRec) (m : String) :
    (fullHistory h s m).head? = some (systemMessage s) ∧
    countUser (windowTurns h) ≤ MAX_MEMORY_TURNS ∧
    countUser (fullHistory h s m) ≤ MAX_MEMORY_TURNS + 1 ∧
    ∃ pre, h = pre ++ windowTurns h := by
  refine ⟨rfl, countUser_windowTurns h, ?_, windowTurns_suffix h⟩
  have hsys : ((systemMessage s).role == "user") = false := rfl
  have hone : countUser [Turn.mk "user" m] = 1 := by simp [countUser]
  have h1 : countUser (fullHistory h s m) = countUser (windowTurns h) + 1 := by
    unfold fullHistory
    rw [countUser_append, countUser_cons, hsys, hone]
    simp
  rw [h1]
  have := countUser_windowTurns h
  omega

/-! ## Claim C5 -/

/-- Claim C5: a redirect-probe timeout or probe error (without
cancellation) never fails the pipeline: redirectCheck records the
unknown-status marker, keeps the original input URL as the final URL,
and perform_scan proceeds to the content-fetch stage (its result is the
fetch-stage continuation run with those values). -/
theorem redirect_failure_nonfatal (env : ScanEnv) (url user : String) (scans : List ScanRec) :
    (env.head = .timeout →
      redirectCheck url env.head = .ok ("Unknown - check timed out", url) ∧
      perform_scan env url user scans =
        performScanFromFetch env url "Unknown - check timed out" url scans) ∧
    (∀ m, env.head = .err m →
      redirectCheck url env.head = .ok ("Error checking redirects", url) ∧
      perform_scan env url user scans =
        performScanFromFetch env url "Error checking redirects" url scans) := by
  constructor
  · intro hh
    refine ⟨by rw [hh]; rfl, ?_⟩
    unfold perform_scan performScanBody performScanFromFetch
    rw [hh]
    rfl
  · intro m hh
    refine ⟨by rw [hh]; rfl, ?_⟩
    unfold perform_scan performScanBody performScanFromFetch
    rw [hh]
    rfl

/-- Witness for redirect_failure_nonfatal at a timed-out and at an
erroring redirect probe. -/
theorem redirect_failure_nonfatal_witness :
    (redirectCheck "http://a.example/" cexEnvHeadTimeout.head =
        .ok ("Unknown - check timed out", "http://a.example/") ∧
      perform_scan cexEnvHeadTimeout "http://a.example/" "u" [] =
        performScanFromFetch cexEnvHeadTimeout "http://a.example/"
          "Unknown - check timed out" "http://a.example/" []) ∧
    (redirectCheck "http://a.example/" cexEnvHeadErr.head =
        .ok ("Error checking redirects", "http://a.example/") ∧
      perform_scan cexEnvHeadErr "http://a.example/" "u" [] =
        performScanFromFetch cexEnvHeadErr "http://a.example/"
          "Error checking redirects" "http://a.example/" []) :=
  ⟨(redirect_failure_nonfatal cexEnvHeadTimeout "http://a.example/" "u" []).1 rfl,
   (redirect_failure_nonfatal cexEnvHeadErr "http://a.example/" "u" []).2 "dns failure" rfl⟩

/-! ## Claim C4 -/

/-- Claim C4: when the content-fetch stage raises (network failure or
fetch timeout), perform_scan returns a fatal error outcome and the
persisted scan history is unchanged: no ScanRecord is written. -/
theorem fetch_error_fatal (env : ScanEnv) (url user ri finalUrl : String)
    (scans : List ScanRec) (h1 : redirectCheck url env.head = .ok (ri, finalUrl)) :
    (∀ m, env.fetch finalUrl = .err m →
      perform_scan env url user scans =
        ([("error", "Failed to fetch URL content: " ++ m)], scans)) ∧
    (env.fetch finalUrl = .timeout →
      perform_scan env url user scans =
        ([("error", "Failed to fetch URL content: ")], scans)) := by
  constructor
  · intro m h2
    unfold perform_scan performScanBody
    rw [h1]
    show runScanHandler scans (fetchStage env url ri finalUrl scans) = _
    unfold fetchStage
    rw [h2]
    rfl
  · intro h2
    unfold perform_scan performScanBody
    rw [h1]
    show runScanHandler scans (fetchStage env url ri finalUrl scans) = _
    unfold fetchStage
    rw [h2]
    rfl

/-- Witness for fetch_error_fatal at a failing and at a timed-out
content fetch. -/
theorem fetch_error_fatal_witness :
    perform_scan cexEnvFetchErr "http://site.example/" "u" [] =
      ([("error", "Failed to fetch URL content: " ++ "connection refused")], []) ∧
    perform_scan cexEnvFetchTimeout "http://site.example/" "u" [] =
      ([("error", "Failed to fetch URL content: ")], []) :=
  ⟨(fetch_error_fatal cexEnvFetchErr "http://site.example/" "u" "No" "http://site.example/"
      [] rfl).1 "connection refused" rfl,
   (fetch_error_fatal cexEnvFetchTimeout "http://site.example/" "u" "No" "http://site.example/"
      [] rfl).2 rfl⟩

/-! ## Claim C1 -/

/-- Claim C1 counterexample: with a captured 2-hop redirect chain and an
analyze-stage model timeout, perform_scan returns an error outcome with
no response key: the degraded report is produced only on cancellation,
not on a model timeout or model error. -/
theorem scan_model_timeout_cex :
    perform_scan cexEnvModelTimeout "http://short.example/x" "alice" [] =
      ([("error", "Failed to scan URL: ")], []) ∧
    (perform_scan cexEnvModelTimeout "http://short.example/x" "alice" []).1.lookup "response" =
      none := by
  constructor <;> rfl

/-- Stage 1 always records a nonempty redirect-information string when
it completes without cancellation. -/
theorem redirectInfo_ne_empty (url : String) (o : HeadOutcome) (ri finalUrl : String)
    (h : redirectCheck url o = .ok (ri, finalUrl)) : ri ≠ "" := by
  cases o with
  | ok redirects f =>
      simp only [redirectCheck] at h
      by_cases hr : redirects.isEmpty
      · rw [if_pos hr] at h
        simp only [Except.ok.injEq, Prod.mk.injEq] at h
        obtain ⟨h1, _⟩ := h
        rw [← h1]
        decide
      · rw [if_neg hr] at h
        simp only [Except.ok.injEq, Prod.mk.injEq] at h
        obtain ⟨h1, _⟩ := h
        rw [← h1]
        intro heq
        have hl := congrArg String.length heq
        rw [String.length_append] at hl
        have h6 : ("Yes - " : String).length = 6 := rfl
        have h0 : ("" : String).length = 0 := rfl
        rw [h6, h0] at hl
        omega
  | timeout =>
      simp only [redirectCheck, Except.ok.injEq, Prod.mk.injEq] at h
      obtain ⟨h1, _⟩ := h
      rw [← h1]
      decide
  | cancelled => simp [redirectCheck] at h
  | err m =>
      simp only [redirectCheck, Except.ok.injEq, Prod.mk.injEq] at h
      obtain ⟨h1, _⟩ := h
      rw [← h1]
      decide

/-- Claim C1 (amended): when the scan task is cancelled during the
analyze stage (stages 1 and 2 having completed), perform_scan returns a
degraded report embedding the captured redirect information and the
"Threat Level: Unknown" marker, and persists it as the new scan record;
a model timeout or model error instead yields an error outcome
(scan_model_timeout_cex). -/
theorem scan_cancel_degraded (env : ScanEnv) (url user ri finalUrl body : String)
    (status : Nat) (scans : List ScanRec)
    (h1 : redirectCheck url env.head = .ok (ri, finalUrl))
    (h2 : env.fetch finalUrl = .ok body status)
    (h3 : env.model (formatScanMessage url ri status (processContent body status)) =
      .cancelled) :
    perform_scan env url user scans =
      ([("response", degradedReport url ri), ("url", url)],
       [⟨url, degradedReport url ri⟩]) ∧
    (∃ a b, degradedReport url ri = a ++ ri ++ b) ∧
    (∃ a b, degradedReport url ri = a ++ "Threat Level: Unknown\n" ++ b) := by
  have hri := redirectInfo_ne_empty url env.head ri finalUrl h1
  refine ⟨?_, ?_, ?_⟩
  · unfold perform_scan performScanBody
    rw [h1]
    show runScanHandler scans (fetchStage env url ri finalUrl scans) = _
    unfold fetchStage
    rw [h2]
    show runScanHandler scans
      (analyzeStage env url ri (formatScanMessage url ri status (processContent body status))) = _
    unfold analyzeStage
    rw [h3]
    rw [if_pos hri]
    rfl
  · refine ⟨"Status: Analysis cancelled but redirect detected\n" ++
      "Threat Level: Unknown\n" ++ "Link: " ++ url ++ "\n" ++ "Redirects: ",
      "\n\n" ++
      "1. Main purpose: Analysis was interrupted, but redirect information was captured\n" ++
      "2. Content summary: Unable to complete full analysis\n" ++
      "3. Security concerns: Unknown - scan was interrupted\n" ++
      "4. Recommendation: Exercise caution when clicking links", ?_⟩
    unfold degradedReport
    simp only [String.append_assoc]
  · refine ⟨"Status: Analysis cancelled but redirect detected\n",
      "Link: " ++ url ++ "\n" ++ "Redirects: " ++ ri ++ "\n\n" ++
      "1. Main purpose: Analysis was interrupted, but redirect information was captured\n" ++
      "2. Content summary: Unable to complete full analysis\n" ++
      "3. Security concerns: Unknown - scan was interrupted\n" ++
      "4. Recommendation: Exercise caution when clicking links", ?_⟩
    unfold degradedReport
    simp only [String.append_assoc]

/-- Witness for scan_cancel_degraded at a concrete cancelled scan with a
2-hop redirect chain. -/
theorem scan_cancel_degraded_witness :
    perform_scan cexEnvModelCancel "http://short.example/x" "alice" [] =
      ([("response", degradedReport "http://short.example/x" cexRedirectChain),
        ("url", "http://short.example/x")],
       [⟨"http://short.example/x", degradedReport "http://short.example/x" cexRedirectChain⟩]) ∧
    (∃ a b, degradedReport "http://short.example/x" cexRedirectChain =
      a ++ cexRedirectChain ++ b) ∧
    (∃ a b, degradedReport "http://short.example/x" cexRedirectChain =
      a ++ "Threat Level: Unknown\n" ++ b) :=
  scan_cancel_degraded cexEnvModelCancel "http://short.example/x" "alice" cexRedirectChain
    "http://final.example/z" "page body" 200 [] rfl rfl rfl

/-! ## Claim C7 -/

theorem beforeLastDot_length_le (l : List Char) : (beforeLastDot l).length ≤ l.length := by
  unfold beforeLastDot
  by_cases hd : l.any (fun c => c == '.')
  · rw [if_pos hd]
    have h1 : (l.reverse.dropWhile (fun c => !(c == '.'))).length ≤ l.length := by
      calc (l.reverse.dropWhile (fun c => !(c == '.'))).length
          ≤ l.reverse.length := (List.dropWhile_sublist _).length_le
        _ = l.length := List.length_reverse l
    simp only [List.length_reverse, List.length_drop]
    omega
  · rw [if_neg hd]

theorem beforeLastDot_length_lt (l : List Char)
    (hd : l.any (fun c => c == '.') = true) :
    (beforeLastDot l).length ≤ l.length - 1 := by
  unfold beforeLastDot
  rw [if_pos hd]
  have h1 : (l.reverse.dropWhile (fun c => !(c == '.'))).length ≤ l.length := by
    calc (l.reverse.dropWhile (fun c => !(c == '.'))).length
        ≤ l.reverse.length := (List.dropWhile_sublist _).length_le
      _ = l.length := List.length_reverse l
  simp only [List.length_reverse, List.length_drop]
  omega

theorem capSentence_length_le (cap : Nat) (l : List Char) :
    (capSentence cap l).length ≤ cap + 1 := by
  unfold capSentence
  by_cases hlen : cap < l.length
  · rw [if_pos hlen]
    have h1 := beforeLastDot_length_le (l.take cap)
    have h2 : (l.take cap).length = cap := by rw [List.length_take]; omega
    simp only [List.length_append, List.length_cons, List.length_nil]
    omega
  · rw [if_neg hlen]; omega

theorem capSentence_length_cap (cap : Nat) (l : List Char)
    (h : (l.take cap).any (fun c => c == '.') = true ∨ l.length ≤ cap) :
    (capSentence cap l).length ≤ cap := by
  unfold capSentence
  by_cases hlen : cap < l.length
  · rw [if_pos hlen]
    rcases h with hd | hle
    · have h1 := beforeLastDot_length_lt (l.take cap) hd
      have h2 : (l.take cap).length = cap := by rw [List.length_take]; omega
      have h3 : 1 ≤ (l.take cap).length := by
        cases hq : l.take cap with
        | nil => rw [hq] at hd; simp at hd
        | cons a as => simp
      simp only [List.length_append, List.length_cons, List.length_nil]
      omega
    · omega
  · rw [if_neg hlen]; omega

set_option maxRecDepth 100000 in
/-- Claim C7 counterexample: a successful scan whose normalized model
reply exceeds the cap but contains no period among its first 1500
characters produces a stored and returned report of exactly 1501
characters, violating the claimed 1500-character bound. -/
theorem scan_report_cap_cex :
    (perform_scan cexEnvLongReply "http://site.example/" "bob" []).1.lookup "response" =
      some (scanReport cexLongReply) ∧
    (scanReport cexLongReply).length = 1501 := by
  constructor
  · rfl
  · decide

/-- Claim C7 (amended): for every successful scan, the report stored in
the ScanRecord and returned to the caller has length at most 1501; it
has length at most the 1500-character cap whenever the normalized reply
already fits the cap or a period occurs among its first 1500 characters;
in the remaining case (over-cap reply with no period among the first
1500 characters) the appended period makes the report 1501 characters. -/
theorem scan_report_cap_amended (env : ScanEnv)
    (url user ri finalUrl body raw : String) (status : Nat) (scans : List ScanRec)
    (h1 : redirectCheck url env.head = .ok (ri, finalUrl))
    (h2 : env.fetch finalUrl = .ok body status)
    (h3 : env.model (formatScanMessage url ri status (processContent body status)) = .ok raw) :
    perform_scan env url user scans =
      ([("response", scanReport raw), ("url", url)], [⟨url, scanReport raw⟩]) ∧
    (scanReport raw).length ≤ 1501 ∧
    (((preTrunc raw.toList).take 1500).any (fun c => c == '.') = true ∨
        (preTrunc raw.toList).length ≤ 1500 →
      (scanReport raw).length ≤ 1500) := by
  refine ⟨?_, ?_, ?_⟩
  · unfold perform_scan performScanBody
    rw [h1]
    show runScanHandler scans (fetchStage env url ri finalUrl scans) = _
    unfold fetchStage
    rw [h2]
    show runScanHandler scans
      (analyzeStage env url ri (formatScanMessage url ri status (processContent body status))) = _
    unfold analyzeStage
    rw [h3]
    rfl
  · have he : (scanReport raw).length = (normalizeReply raw.toList).length := rfl
    rw [he]
    unfold normalizeReply
    have := capSentence_length_le 1500 (preTrunc raw.toList)
    omega
  · intro h
    have he : (scanReport raw).length = (normalizeReply raw.toList).length := rfl
    rw [he]
    unfold normalizeReply
    exact capSentence_length_cap 1500 (preTrunc raw.toList) h

/-- Witness for scan_report_cap_amended at a short in-cap model reply. -/
theorem scan_report_cap_witness :
    perform_scan cexEnvShortReply "http://site.example/" "w" [] =
      ([("response", scanReport "Threat Level: Safe\nStatus: fine."),
        ("url", "http://site.example/")],
       [⟨"http://site.example/", scanReport "Threat Level: Safe\nStatus: fine."⟩]) ∧
    (scanReport "Threat Level: Safe\nStatus: fine.").length ≤ 1501 ∧
    (((preTrunc ("Threat Level: Safe\nStatus: fine.").toList).take 1500).any
        (fun c => c == '.') = true ∨
        (preTrunc ("Threat Level: Safe\nStatus: fine.").toList).length ≤ 1500 →
      (scanReport "Threat Level: Safe\nStatus: fine.").length ≤ 1500) :=
  scan_report_cap_amended cexEnvShortReply "http://site.example/" "w" "No"
    "http://site.example/" "page body" "Threat Level: Safe\nStatus: fine." 200 [] rfl rfl rfl

/-! ## Claim C8 -/

theorem isPrefixOf_of_append (a b l : List Char)
    (h : (a ++ b).isPrefixOf l = true) : a.isPrefixOf l = true := by
  induction a generalizing l with
  | nil => simp [List.isPrefixOf]
  | cons x xs ih =>
      cases l with
      | nil => simp [List.isPrefixOf] at h
      | cons y ys =>
          simp only [List.cons_append, List.isPrefixOf, Bool.and_eq_true] at h ⊢
          exact ⟨h.1, ih ys h.2⟩

/-- Claim C8 counterexample: the URL "httpbin.org" carries no http or
https scheme, yet the /scan handler passes it through unchanged instead
of prefixing "http://", because the source only tests
startswith("http") and "httpbin.org" begins with that text. -/
theorem scan_url_prefix_cex :
    hasHttpScheme "httpbin.org" = false ∧
    normalizeScanUrl "httpbin.org" = "httpbin.org" ∧
    normalizeScanUrl "httpbin.org" ≠ "http://" ++ "httpbin.org" := by
  refine ⟨by decide, by decide, by decide⟩

/-- Claim C8 (amended): a URL supplied over the /scan WebSocket that
does not begin with the literal text "http" is prefixed with "http://"
before validation and scanning; any URL beginning with "http" — in
particular every URL already carrying an http or https scheme, but also
scheme-less hosts such as "httpbin.org" — is passed through unchanged. -/
theorem scan_url_prefix_amended (url : String) :
    (pyStartsWith "http" url = false → normalizeScanUrl url = "http://" ++ url) ∧
    (pyStartsWith "http" url = true → normalizeScanUrl url = url) ∧
    (hasHttpScheme url = true → normalizeScanUrl url = url) := by
  refine ⟨?_, ?_, ?_⟩
  · intro h; simp [normalizeScanUrl, h]
  · intro h; simp [normalizeScanUrl, h]
  · intro h
    have hp : pyStartsWith "http" url = true := by
      unfold hasHttpScheme at h
      rw [Bool.or_eq_true] at h
      cases h with
      | inl h1 =>
          unfold pyStartsWith at h1 ⊢
          have hsplit : ("http://" : String).toList =
              ("http" : String).toList ++ ("://" : String).toList := by decide
          rw [hsplit] at h1
          exact isPrefixOf_of_append _ _ _ h1
      | inr h2 =>
          unfold pyStartsWith at h2 ⊢
          have hsplit : ("https://" : String).toList =
              ("http" : String).toList ++ ("s://" : String).toList := by decide
          rw [hsplit] at h2
          exact isPrefixOf_of_append _ _ _ h2
    simp [normalizeScanUrl, hp]

/-- Witness for scan_url_prefix_amended: a scheme-less URL receives the
prefix; an https URL passes through unchanged. -/
theorem scan_url_prefix_witness :
    normalizeScanUrl "example.com/a" = "http://" ++ "example.com/a" ∧
    normalizeScanUrl "https://secure.example/" = "https://secure.example/" :=
  ⟨(scan_url_prefix_amended "example.com/a").1 (by decide),
   (scan_url_prefix_amended "https://secure.example/").2.2 (by decide)⟩

/-! ## Claim C6 -/

/-- Claim C6: for every stored history, deleting an index i that holds
a user turn immediately followed by an assistant turn removes both
entries; and deleting any index out of bounds (negative or at least the
history length) returns a validation error and leaves the persisted
history unchanged — the two parts hold independently, for every history
and index. -/
theorem delete_pair_and_bounds (user : String) (h : List Turn) :
    (∀ i : Nat, i + 1 < h.length →
      (h.getD i ⟨"", ""⟩).role = "user" →
      (h.getD (i + 1) ⟨"", ""⟩).role = "assistant" →
      delete_message_endpoint user h (i : Int) =
        (.ok ("Message " ++ toString (i : Int) ++ " deleted for user " ++ user),
         h.take i ++ h.drop (i + 2))) ∧
    (∀ j : Int, j < 0 ∨ (h.length : Int) ≤ j →
      delete_message_endpoint user h j = (.error ("Invalid index " ++ toString j), h)) := by
  constructor
  · intro i hlen hu ha
    unfold delete_message_endpoint deleteMessage
    have hb : ¬((i : Int) < 0 ∨ (h.length : Int) ≤ (i : Int)) := by
      push_neg
      refine ⟨Int.natCast_nonneg i, ?_⟩
      exact_mod_cast (by omega : i < h.length)
    rw [if_neg hb]
    have hti : ((i : Int)).toNat = i := Int.toNat_natCast i
    rw [hti]
    rw [if_pos ⟨by omega, hu⟩]
    rw [if_pos ⟨hlen, ha⟩]
  · intro j hj
    unfold delete_message_endpoint deleteMessage
    rw [if_pos hj]

/-- Witness for delete_pair_and_bounds: on a concrete three-entry
history deleting index 0 removes the user/assistant pair and deleting
index 5 is rejected with the history unchanged; on the empty history
(which holds no user/assistant pair at all) deleting index 0 is likewise
rejected with the history unchanged. -/
theorem delete_pair_and_bounds_witness :
    delete_message_endpoint "u" cexHistoryPair ((0 : Nat) : Int) =
      (.ok ("Message " ++ toString ((0 : Nat) : Int) ++ " deleted for user " ++ "u"),
       cexHistoryPair.take 0 ++ cexHistoryPair.drop 2) ∧
    delete_message_endpoint "u" cexHistoryPair 5 =
      (.error ("Invalid index " ++ toString (5 : Int)), cexHistoryPair) ∧
    delete_message_endpoint "u" [] 0 =
      (.error ("Invalid index " ++ toString (0 : Int)), []) :=
  ⟨(delete_pair_and_bounds "u" cexHistoryPair).1 0 (by decide) (by decide) (by decide),
   (delete_pair_and_bounds "u" cexHistoryPair).2 5 (Or.inr (by decide)),
   (delete_pair_and_bounds "u" []).2 0 (Or.inr (by decide))⟩

/-! ## Claim C10 -/

theorem chatFailure_not_ok (env : ChatEnv) (msgs : List Turn) (raw : String)
    (hv : env.version = .reachable 200)
    (ht : (∃ m, env.tags = .checkError m) ∨
      (∃ ns, env.tags = .modelList ns ∧ MODEL_NAME ∈ ns))
    (hcall : env.model msgs = .ok raw ∨ env.model msgs = .cancelled)
    (hf : chatFailure env msgs) : False := by
  rcases hf with ⟨m, hv'⟩ | ⟨s, hv', hs'⟩ | ⟨ns, ht', hn⟩ | hto | ⟨m, herr⟩
  · rw [hv] at hv'; cases hv'
  · rw [hv] at hv'
    injection hv' with hse
    exact hs' hse.symm
  · rcases ht with ⟨m2, ht2⟩ | ⟨ns2, ht2, hmem⟩
    · rw [ht2] at ht'; cases ht'
    · rw [ht2] at ht'
      injection ht' with hne
      subst hne
      exact hn hmem
  · rcases hcall with hc | hc <;> rw [hc] at hto <;> cases hto
  · rcases hcall with hc | hc <;> rw [hc] at herr <;> cases herr

/-- Claim C10: whenever process_chat returns early because the model
service is unreachable, the version check fails, the model is missing
from the tag list, the model call times out, or the model call raises,
the persisted ConversationHistory is returned exactly as it was before
the call: the user/assistant pair is appended only after a successful
model reply. -/
theorem chat_failure_preserves_history (env : ChatEnv) (history : List Turn)
    (scans : List ScanRec) (msg : String)
    (hf : chatFailure env (fullHistory history scans msg)) :
    ∃ r, process_chat env history scans msg = .ok (r, history) := by
  unfold process_chat
  cases hv : env.version with
  | unreachable m => exact ⟨_, rfl⟩
  | reachable status =>
      dsimp only
      by_cases hs : status ≠ 200
      · rw [if_pos hs]
        exact ⟨_, rfl⟩
      · rw [if_neg hs]
        push_neg at hs
        subst hs
        cases ht : env.tags with
        | checkError m2 =>
            dsimp only
            unfold chatModelCall
            cases hcall : env.model (fullHistory history scans msg) with
            | ok raw =>
                exact (chatFailure_not_ok env (fullHistory history scans msg) raw hv
                  (Or.inl ⟨m2, ht⟩) (Or.inl hcall) hf).elim
            | timeout => exact ⟨_, rfl⟩
            | err m3 => exact ⟨_, rfl⟩
            | cancelled =>
                exact (chatFailure_not_ok env (fullHistory history scans msg) "" hv
                  (Or.inl ⟨m2, ht⟩) (Or.inr hcall) hf).elim
        | modelList names =>
            dsimp only
            by_cases hmem : MODEL_NAME ∈ names
            · rw [if_pos hmem]
              unfold chatModelCall
              cases hcall : env.model (fullHistory history scans msg) with
              | ok raw =>
                  exact (chatFailure_not_ok env (fullHistory history scans msg) raw hv
                    (Or.inr ⟨names, ht, hmem⟩) (Or.inl hcall) hf).elim
              | timeout => exact ⟨_, rfl⟩
              | err m3 => exact ⟨_, rfl⟩
              | cancelled =>
                  exact (chatFailure_not_ok env (fullHistory history scans msg) "" hv
                    (Or.inr ⟨names, ht, hmem⟩) (Or.inr hcall) hf).elim
            · rw [if_neg hmem]
              exact ⟨_, rfl⟩

/-- Witness for chat_failure_preserves_history with the Ollama service
unreachable. -/
theorem chat_failure_preserves_history_witness :
    ∃ r, process_chat cexChatEnvDown [] [] "hello" = .ok (r, []) :=
  chat_failure_preserves_history cexChatEnvDown [] [] "hello"
    (Or.inl ⟨"connection refused", rfl⟩)

end MrWhite
